import Mathlib

/-!
# Verification of the Pendo OpenFeature server provider

Shallow embedding of the server-side flag-resolution pipeline of
pendo-openfeature-provider-js: the JZB payload encoder (jzb.ts), the
segment-flag cache, the HTTP status handling of fetchSegmentFlags, the
typed resolution entry points of PendoProvider, the lifecycle
operations and the track reporter.

Time is passed explicitly (Date.now() becomes a parameter), the network
is passed as an explicit outcome value (the settled result of the fetch
call), and the mutable provider fields (status, cache) become an
explicit state record threaded through each operation.
-/

namespace Pendo

/-- JSON values, used for request payloads and object-flag values. -/
inductive Json where
  | null : Json
  | bool (b : Bool) : Json
  | num (n : Int) : Json
  | str (s : String) : Json
  | arr (xs : List Json) : Json
  | obj (fields : List (String × Json)) : Json

/-- Resolution reasons used by the provider (subset of the OpenFeature enum). -/
inductive Reason where
  | TARGETING_MATCH : Reason
  | DEFAULT : Reason
  | ERROR : Reason
deriving DecidableEq

/-- Error codes used by the provider. -/
inductive ErrorCode where
  | GENERAL : ErrorCode
deriving DecidableEq

/-- ResolutionDetails, as returned by the resolve* methods. -/
structure ResolutionDetails (α : Type) where
  value : α
  reason : Reason
  variant : Option String := none
  errorCode : Option ErrorCode := none
  errorMessage : Option String := none

/-- Evaluation context: targetingKey is the visitor id, accountId optional.
A missing field is `none`; JavaScript falsiness also treats the empty
string as missing, which `falsyStr` captures. -/
structure EvaluationContext where
  targetingKey : Option String := none
  accountId : Option String := none
deriving DecidableEq

/-- JavaScript falsiness of an optional string: undefined or empty. -/
def falsyStr : Option String → Bool
  | none => true
  | some s => s.isEmpty

/-- Provider construction options (PendoProviderOptions), with the
defaults applied by the constructor. -/
structure PendoProviderOptions where
  apiKey : String
  defaultUrl : String
  baseUrl : String := "https://data.pendo.io"
  cacheTtl : Nat := 60000
  trackEventSecret : Option String := none

/-- Provider status (subset of ServerProviderStatus). -/
inductive ServerProviderStatus where
  | NOT_READY : ServerProviderStatus
  | READY : ServerProviderStatus
deriving DecidableEq

/-- A cache entry: flags plus absolute expiry time in ms. -/
structure CacheEntry where
  flags : List String
  expiresAt : Nat
deriving DecidableEq

/-- The mutable fields of a PendoProvider instance: status and the
visitor-keyed cache (the Map modelled as an association list where an
insert removes any previous binding of the key). -/
structure ProviderState where
  status : ServerProviderStatus := ServerProviderStatus.NOT_READY
  cache : List (String × CacheEntry) := []
deriving DecidableEq

/-- Map.get on the cache association list. -/
def cacheGet (cache : List (String × CacheEntry)) (k : String) : Option CacheEntry :=
  match cache.find? (fun p => p.1 == k) with
  | some p => some p.2
  | none => none

/-- Map.set on the cache association list: replaces any existing entry. -/
def cacheSet (cache : List (String × CacheEntry)) (k : String) (e : CacheEntry) :
    List (String × CacheEntry) :=
  (k, e) :: cache.filter (fun p => ¬(p.1 == k))

/-- An HTTP response as the provider reads it: ok, status, statusText and
the segmentFlags field of the parsed JSON body (none when absent). -/
structure HttpResponse where
  ok : Bool
  status : Nat
  statusText : String := ""
  segmentFlags : Option (List String) := none
deriving DecidableEq

/-- Outcome of a fetch call: either the promise rejects with a transport
error, or a response arrives. -/
inductive FetchOutcome where
  | failure (msg : String) : FetchOutcome
  | response (r : HttpResponse) : FetchOutcome
deriving DecidableEq

/-- PendoProvider.fetchSegmentFlags, status handling only (the request
construction is modelled separately by the encoder): 202 and 451 yield
an empty flag list, 429 and other non-ok statuses throw, a 200-style ok
response yields its segmentFlags field or the empty list. -/
def fetchSegmentFlags (outcome : FetchOutcome) : Except String (List String) :=
  match outcome with
  | FetchOutcome.failure msg => Except.error msg
  | FetchOutcome.response r =>
    if r.status = 202 then Except.ok []
    else if r.status = 429 then Except.error "Pendo API rate limit exceeded"
    else if r.status = 451 then Except.ok []
    else if !r.ok then
      Except.error ("Pendo API error: " ++ toString r.status ++ " " ++ r.statusText)
    else Except.ok (r.segmentFlags.getD [])

/-- The composite cache key of PendoProvider.getSegmentFlags:
visitorId + ":" + (accountId or ""). -/
def cacheKeyOf (ctx : EvaluationContext) : String :=
  ctx.targetingKey.getD "" ++ ":" ++ ctx.accountId.getD ""

/-- Result of getSegmentFlags: the returned value (throwing modelled by
Except, the missing-visitor null by Option), the provider state after
the call, and whether a remote fetch was performed. -/
structure SegmentFlagsResult where
  result : Except String (Option (List String))
  state : ProviderState
  fetched : Bool

/-- The fetch-and-store arm of getSegmentFlags: call fetchSegmentFlags
and on success cache the flags under the key with expiry now + cacheTtl;
on error rethrow without touching the cache. -/
def fetchStore (opts : PendoProviderOptions) (st : ProviderState) (now : Nat)
    (key : String) (net : FetchOutcome) : SegmentFlagsResult :=
  match fetchSegmentFlags net with
  | Except.ok flags =>
    ⟨Except.ok (some flags),
     { st with cache := cacheSet st.cache key ⟨flags, now + opts.cacheTtl⟩ }, true⟩
  | Except.error e => ⟨Except.error e, st, true⟩

/-- PendoProvider.getSegmentFlags: return null without any remote call
when the visitor id is missing; otherwise serve an unexpired cache entry,
else fetch and store. -/
def getSegmentFlags (opts : PendoProviderOptions) (st : ProviderState) (now : Nat)
    (ctx : EvaluationContext) (net : FetchOutcome) : SegmentFlagsResult :=
  if falsyStr ctx.targetingKey then ⟨Except.ok none, st, false⟩
  else
    let key := cacheKeyOf ctx
    match cacheGet st.cache key with
    | some cached =>
      if cached.expiresAt > now then ⟨Except.ok (some cached.flags), st, false⟩
      else fetchStore opts st now key net
    | none => fetchStore opts st now key net

/-- Result of a resolve* call: details, the state after the call, and
whether a remote fetch was performed. -/
structure ResolveResult (α : Type) where
  details : ResolutionDetails α
  state : ProviderState
  fetched : Bool

/-- PendoProvider.resolveBooleanEvaluation: null flags give the default
with variant "default"; otherwise membership of the flag key decides
value, reason and variant; any thrown error is caught and converted to
an ERROR result carrying the default value. -/
def resolveBooleanEvaluation (opts : PendoProviderOptions) (st : ProviderState)
    (now : Nat) (flagKey : String) (defaultValue : Bool) (ctx : EvaluationContext)
    (net : FetchOutcome) : ResolveResult Bool :=
  let g := getSegmentFlags opts st now ctx net
  match g.result with
  | Except.error e =>
    ⟨{ value := defaultValue, reason := Reason.ERROR,
       errorCode := some ErrorCode.GENERAL, errorMessage := some e }, g.state, g.fetched⟩
  | Except.ok none =>
    ⟨{ value := defaultValue, reason := Reason.DEFAULT, variant := some "default" },
     g.state, g.fetched⟩
  | Except.ok (some flags) =>
    let enabled := flags.contains flagKey
    ⟨{ value := enabled,
       reason := if enabled then Reason.TARGETING_MATCH else Reason.DEFAULT,
       variant := some (if enabled then "on" else "off") }, g.state, g.fetched⟩

/-- PendoProvider.resolveStringEvaluation, derived from the boolean
resolution with default false. -/
def resolveStringEvaluation (opts : PendoProviderOptions) (st : ProviderState)
    (now : Nat) (flagKey : String) (defaultValue : String) (ctx : EvaluationContext)
    (net : FetchOutcome) : ResolveResult String :=
  let r := resolveBooleanEvaluation opts st now flagKey false ctx net
  let b := r.details
  if b.reason = Reason.ERROR then
    ⟨{ value := defaultValue, reason := Reason.ERROR,
       errorCode := b.errorCode, errorMessage := b.errorMessage }, r.state, r.fetched⟩
  else if b.reason = Reason.DEFAULT ∧ b.value = false then
    ⟨{ value := defaultValue, reason := Reason.DEFAULT, variant := some "default" },
     r.state, r.fetched⟩
  else
    ⟨{ value := if b.value then "on" else "off", reason := b.reason,
       variant := b.variant }, r.state, r.fetched⟩

/-- PendoProvider.resolveNumberEvaluation, derived from the boolean
resolution with default false. -/
def resolveNumberEvaluation (opts : PendoProviderOptions) (st : ProviderState)
    (now : Nat) (flagKey : String) (defaultValue : Int) (ctx : EvaluationContext)
    (net : FetchOutcome) : ResolveResult Int :=
  let r := resolveBooleanEvaluation opts st now flagKey false ctx net
  let b := r.details
  if b.reason = Reason.ERROR then
    ⟨{ value := defaultValue, reason := Reason.ERROR,
       errorCode := b.errorCode, errorMessage := b.errorMessage }, r.state, r.fetched⟩
  else if b.reason = Reason.DEFAULT ∧ b.value = false then
    ⟨{ value := defaultValue, reason := Reason.DEFAULT, variant := some "default" },
     r.state, r.fetched⟩
  else
    ⟨{ value := if b.value then 1 else 0, reason := b.reason,
       variant := b.variant }, r.state, r.fetched⟩

/-- PendoProvider.resolveObjectEvaluation, derived from the boolean
resolution with default false; the on representation is the object
with a single boolean field enabled. -/
def resolveObjectEvaluation (opts : PendoProviderOptions) (st : ProviderState)
    (now : Nat) (flagKey : String) (defaultValue : Json) (ctx : EvaluationContext)
    (net : FetchOutcome) : ResolveResult Json :=
  let r := resolveBooleanEvaluation opts st now flagKey false ctx net
  let b := r.details
  if b.reason = Reason.ERROR then
    ⟨{ value := defaultValue, reason := Reason.ERROR,
       errorCode := b.errorCode, errorMessage := b.errorMessage }, r.state, r.fetched⟩
  else if b.reason = Reason.DEFAULT ∧ b.value = false then
    ⟨{ value := defaultValue, reason := Reason.DEFAULT, variant := some "default" },
     r.state, r.fetched⟩
  else
    ⟨{ value := Json.obj [("enabled", Json.bool b.value)], reason := b.reason,
       variant := b.variant }, r.state, r.fetched⟩

/-- Modelled from the spec: the shared derivation rule for the typed
resolvers. If the boolean reason is ERROR, propagate the default with
the error fields; else if the reason is DEFAULT and the value false,
return the default with variant default; else translate the boolean
into the on or off representation of the type, carrying reason and
variant through unchanged. -/
def specDeriveRule {α : Type} (defaultValue onRep offRep : α)
    (b : ResolutionDetails Bool) : ResolutionDetails α :=
  if b.reason = Reason.ERROR then
    { value := defaultValue, reason := Reason.ERROR,
      errorCode := b.errorCode, errorMessage := b.errorMessage }
  else if b.reason = Reason.DEFAULT ∧ b.value = false then
    { value := defaultValue, reason := Reason.DEFAULT, variant := some "default" }
  else
    { value := if b.value then onRep else offRep, reason := b.reason,
      variant := b.variant }

/-- PendoProvider.initialize: reject when the api key or default url is
empty (api key checked first), otherwise set the status to READY. -/
def initializeProvider (opts : PendoProviderOptions) (st : ProviderState) :
    Except String ProviderState :=
  if opts.apiKey.isEmpty then Except.error "Pendo API key is required"
  else if opts.defaultUrl.isEmpty then
    Except.error "Pendo defaultUrl is required for server-side evaluation"
  else Except.ok { st with status := ServerProviderStatus.READY }

/-- PendoProvider.onClose: set the status to NOT_READY and clear the cache. -/
def onClose (_st : ProviderState) : ProviderState :=
  { status := ServerProviderStatus.NOT_READY, cache := [] }

/-- PendoProvider.clearCache. -/
def clearCache (st : ProviderState) : ProviderState :=
  { st with cache := [] }

/-- The body of the track POST request. -/
structure TrackPayload where
  type : String
  event : String
  visitorId : String
  accountId : Option String
  timestamp : Nat
  properties : List (String × Json)

/-- The track POST request: url, method, headers and body. -/
structure TrackRequest where
  url : String
  method : String
  contentType : String
  secretHeader : String
  payload : TrackPayload

/-- Outcome of PendoProvider.track before delivery: one of the two
warnings (no network call is made) or a constructed request. -/
inductive TrackOutcome where
  | warnNoSecret : TrackOutcome
  | warnNoVisitor : TrackOutcome
  | sent (req : TrackRequest) : TrackOutcome

/-- PendoProvider.track: check the configured secret first, then the
visitor id; when both hold build the payload and the POST request. -/
def track (opts : PendoProviderOptions) (eventName : String)
    (ctx : EvaluationContext) (props : List (String × Json)) (now : Nat) :
    TrackOutcome :=
  if falsyStr opts.trackEventSecret then TrackOutcome.warnNoSecret
  else if falsyStr ctx.targetingKey then TrackOutcome.warnNoVisitor
  else TrackOutcome.sent
    { url := opts.baseUrl ++ "/data/track"
      method := "POST"
      contentType := "application/json"
      secretHeader := opts.trackEventSecret.getD ""
      payload :=
        { type := "track"
          event := eventName
          visitorId := ctx.targetingKey.getD ""
          accountId := ctx.accountId
          timestamp := now
          properties := props } }

/-- Delivery of a track outcome: the warnings only log, and a transport
failure of the fire-and-forget request is caught and logged. The return
type is a plain log list, so no failure can escape to the caller. -/
def performTrack (o : TrackOutcome) (transport : TrackRequest → Except String Unit) :
    List String :=
  match o with
  | TrackOutcome.warnNoSecret =>
    ["[PendoProvider] trackEventSecret is required to track events"]
  | TrackOutcome.warnNoVisitor =>
    ["[PendoProvider] targetingKey (visitorId) is required to track events"]
  | TrackOutcome.sent req =>
    match transport req with
    | Except.ok _ => []
    | Except.error e => ["[PendoProvider] Failed to track event: " ++ e]

/-! ## JZB encoding (jzb.ts and the decodeJzb test helper)

Bytes are natural numbers below 256. The standard Base64 step performed
by Buffer.toString performs the RFC 4648 standard alphabet with padding;
it is written out here byte by byte. The external libraries used by
encodeJzb and decodeJzb (JSON.stringify and JSON.parse of the JSON
standard, pako.deflate and pako.inflate of zlib) are passed as explicit
function parameters and their contracts appear as hypotheses of the
round-trip theorem. -/

/-- The standard Base64 alphabet. -/
def b64Alphabet : List Char :=
  "ABCDEFGHIJKLMNOPQRSTUVWXYZabcdefghijklmnopqrstuvwxyz0123456789+/".toList

/-- The character for a 6-bit group. -/
def b64Char (n : Nat) : Char := b64Alphabet.getD n 'A'

/-- The 6-bit group of a Base64 character. -/
def b64Index (c : Char) : Nat := b64Alphabet.indexOf c

/-- Standard Base64 of a byte list, with padding: three bytes become four
characters, a final one or two bytes become two or three characters plus
padding. -/
def b64EncodeBytes : List Nat → List Char
  | [] => []
  | [a] => [b64Char (a / 4), b64Char (a % 4 * 16), '=', '=']
  | [a, b] => [b64Char (a / 4), b64Char (a % 4 * 16 + b / 16), b64Char (b % 16 * 4), '=']
  | a :: b :: c :: rest =>
    b64Char (a / 4) :: b64Char (a % 4 * 16 + b / 16) ::
      b64Char (b % 16 * 4 + c / 64) :: b64Char (c % 64) :: b64EncodeBytes rest

/-- Standard Base64 decoding of a character list (as Buffer.from with the
base64 encoding performs it on well-formed input). -/
def b64DecodeChars : List Char → List Nat
  | c1 :: c2 :: c3 :: c4 :: rest =>
    let n1 := b64Index c1
    let n2 := b64Index c2
    if c3 = '=' then [n1 * 4 + n2 / 16]
    else
      let n3 := b64Index c3
      if c4 = '=' then [n1 * 4 + n2 / 16, n2 % 16 * 16 + n3 / 4]
      else
        (n1 * 4 + n2 / 16) :: (n2 % 16 * 16 + n3 / 4) ::
          (n3 % 4 * 64 + b64Index c4) :: b64DecodeChars rest
  | _ => []

/-- The non-padding part of the Base64 encoding. -/
def b64Core : List Nat → List Char
  | [] => []
  | [a] => [b64Char (a / 4), b64Char (a % 4 * 16)]
  | [a, b] => [b64Char (a / 4), b64Char (a % 4 * 16 + b / 16), b64Char (b % 16 * 4)]
  | a :: b :: c :: rest =>
    b64Char (a / 4) :: b64Char (a % 4 * 16 + b / 16) ::
      b64Char (b % 16 * 4 + c / 64) :: b64Char (c % 64) :: b64Core rest

/-- The padding part of the Base64 encoding. -/
def b64Pad : List Nat → List Char
  | [] => []
  | [_] => ['=', '=']
  | [_, _] => ['=']
  | _ :: _ :: _ :: rest => b64Pad rest

/-- The URL-safe remapping of jzb.ts: plus to minus, slash to underscore. -/
def urlChar (c : Char) : Char :=
  if c = '+' then '-' else if c = '/' then '_' else c

/-- Removal of the trailing padding, the =+$ replacement of jzb.ts. -/
def stripEq (s : List Char) : List Char :=
  (s.reverse.dropWhile (fun c => c == '=')).reverse

/-- The character class of the URL-safe output. -/
def urlAlphabet : List Char :=
  "ABCDEFGHIJKLMNOPQRSTUVWXYZabcdefghijklmnopqrstuvwxyz0123456789-_".toList

/-- encodeJzb of jzb.ts: JSON-serialize, deflate, standard Base64, then
remap to the URL-safe alphabet and strip the padding. JSON.stringify
(producing UTF-8 bytes) and pako.deflate are external libraries passed
as parameters. -/
def encodeJzb (stringify : Json → List Nat) (deflate : List Nat → List Nat)
    (payload : Json) : List Char :=
  stripEq ((b64EncodeBytes (deflate (stringify payload))).map urlChar)

/-- The inverse remapping of the decodeJzb test helper: minus to plus,
underscore to slash. -/
def restoreChar (c : Char) : Char :=
  if c = '-' then '+' else if c = '_' then '/' else c

/-- Padding restoration of the decodeJzb test helper: pad the length to a
multiple of four with = characters. -/
def padB64 (s : List Char) : List Char :=
  let p := s.length % 4
  if p > 0 then s ++ List.replicate (4 - p) '=' else s

/-- decodeJzb of the test file: restore the standard alphabet and the
padding, Base64-decode, inflate and JSON-parse. pako.inflate and
JSON.parse are external libraries passed as parameters. -/
def decodeJzb (inflate : List Nat → List Nat) (parse : List Nat → Option Json)
    (encoded : List Char) : Option Json :=
  parse (inflate (b64DecodeChars (padB64 (encoded.map restoreChar))))

/-! ## Base64 helper lemmas -/

/-- Decoding a 6-bit group character recovers the group. -/
theorem b64_index_char {n : Nat} (h : n < 64) : b64Index (b64Char n) = n := by
  have hall : ∀ m ∈ List.range 64, b64Index (b64Char m) = m := by decide
  exact hall n (List.mem_range.mpr h)

/-- No 6-bit group character is the padding character. -/
theorem b64_char_ne_eq {n : Nat} (h : n < 64) : b64Char n ≠ '=' := by
  have hall : ∀ m ∈ List.range 64, b64Char m ≠ '=' := by decide
  exact hall n (List.mem_range.mpr h)

/-- Every 6-bit group character is in the Base64 alphabet. -/
theorem b64_char_mem {n : Nat} (h : n < 64) : b64Char n ∈ b64Alphabet := by
  have hall : ∀ m ∈ List.range 64, b64Char m ∈ b64Alphabet := by decide
  exact hall n (List.mem_range.mpr h)

/-- Standard Base64 decoding is a left inverse of standard Base64
encoding on byte lists. -/
theorem b64_decode_encode :
    ∀ bs : List Nat, (∀ x ∈ bs, x < 256) → b64DecodeChars (b64EncodeBytes bs) = bs := by
  intro bs
  induction bs using b64EncodeBytes.induct with
  | case1 => intro _; rfl
  | case2 a =>
    intro h
    have ha : a < 256 := h a (by simp)
    simp only [b64EncodeBytes, b64DecodeChars]
    rw [if_pos trivial]
    rw [b64_index_char (by omega), b64_index_char (by omega)]
    simp only [List.cons.injEq, and_true]
    omega
  | case3 a b =>
    intro h
    have ha : a < 256 := h a (by simp)
    have hb : b < 256 := h b (by simp)
    simp only [b64EncodeBytes, b64DecodeChars]
    rw [if_neg (b64_char_ne_eq (by omega)), if_pos trivial]
    rw [b64_index_char (by omega), b64_index_char (by omega), b64_index_char (by omega)]
    simp only [List.cons.injEq, and_true]
    constructor <;> omega
  | case4 a b c rest ih =>
    intro h
    have ha : a < 256 := h a (by simp)
    have hb : b < 256 := h b (by simp)
    have hc : c < 256 := h c (by simp)
    simp only [b64EncodeBytes, b64DecodeChars]
    rw [if_neg (b64_char_ne_eq (by omega)), if_neg (b64_char_ne_eq (by omega))]
    rw [b64_index_char (by omega), b64_index_char (by omega), b64_index_char (by omega),
        b64_index_char (by omega)]
    rw [ih (fun x hx => h x (by simp [hx]))]
    simp only [List.cons.injEq, and_true]
    refine ⟨by omega, by omega, by omega⟩

/-- The Base64 encoding splits into its core characters and its padding. -/
theorem b64_encode_eq_core_pad :
    ∀ bs : List Nat, b64EncodeBytes bs = b64Core bs ++ b64Pad bs := by
  intro bs
  induction bs using b64EncodeBytes.induct with
  | case1 => rfl
  | case2 a => rfl
  | case3 a b => rfl
  | case4 a b c rest ih =>
    simp only [b64EncodeBytes, b64Core, b64Pad, ih, List.cons_append]

/-- Every core character lies in the Base64 alphabet. -/
theorem b64_core_mem :
    ∀ bs : List Nat, (∀ x ∈ bs, x < 256) → ∀ c ∈ b64Core bs, c ∈ b64Alphabet := by
  intro bs
  induction bs using b64Core.induct with
  | case1 => intro _ c hc; simp [b64Core] at hc
  | case2 a =>
    intro h c hc
    have ha : a < 256 := h a (by simp)
    simp only [b64Core, List.mem_cons, List.not_mem_nil, or_false] at hc
    rcases hc with rfl | rfl
    · exact b64_char_mem (by omega)
    · exact b64_char_mem (by omega)
  | case3 a b =>
    intro h c hc
    have ha : a < 256 := h a (by simp)
    have hb : b < 256 := h b (by simp)
    simp only [b64Core, List.mem_cons, List.not_mem_nil, or_false] at hc
    rcases hc with rfl | rfl | rfl
    · exact b64_char_mem (by omega)
    · exact b64_char_mem (by omega)
    · exact b64_char_mem (by omega)
  | case4 a b c rest ih =>
    intro h ch hch
    have ha : a < 256 := h a (by simp)
    have hb : b < 256 := h b (by simp)
    have hc : c < 256 := h c (by simp)
    simp only [b64Core, List.mem_cons] at hch
    rcases hch with rfl | rfl | rfl | rfl | hch
    · exact b64_char_mem (by omega)
    · exact b64_char_mem (by omega)
    · exact b64_char_mem (by omega)
    · exact b64_char_mem (by omega)
    · exact ih (fun x hx => h x (by simp [hx])) ch hch

/-- The core length modulo four determines the padding: remainder zero
with no padding, two with double padding, three with single padding. -/
theorem b64_core_pad_shape :
    ∀ bs : List Nat,
      ((b64Core bs).length % 4 = 0 ∧ b64Pad bs = []) ∨
      ((b64Core bs).length % 4 = 2 ∧ b64Pad bs = ['=', '=']) ∨
      ((b64Core bs).length % 4 = 3 ∧ b64Pad bs = ['=']) := by
  intro bs
  induction bs using b64Core.induct with
  | case1 => left; exact ⟨rfl, rfl⟩
  | case2 a => right; left; exact ⟨rfl, rfl⟩
  | case3 a b => right; right; exact ⟨rfl, rfl⟩
  | case4 a b c rest ih =>
    simp only [b64Core, b64Pad, List.length_cons]
    rcases ih with ⟨h1, h2⟩ | ⟨h1, h2⟩ | ⟨h1, h2⟩
    · left; exact ⟨by omega, h2⟩
    · right; left; exact ⟨by omega, h2⟩
    · right; right; exact ⟨by omega, h2⟩

/-- A nonempty byte list has a nonempty Base64 core. -/
theorem b64_core_ne_nil : ∀ bs : List Nat, bs ≠ [] → b64Core bs ≠ [] := by
  intro bs hne
  match bs with
  | [] => exact absurd rfl hne
  | [a] => simp [b64Core]
  | [a, b] => simp [b64Core]
  | a :: b :: c :: rest => simp [b64Core]

/-- The URL-safe remapping is inverted by the restoring remapping on the
Base64 alphabet. -/
theorem url_restore_alpha : ∀ c ∈ b64Alphabet, restoreChar (urlChar c) = c := by decide

/-- The URL-safe remapping sends the Base64 alphabet into the URL-safe
character class. -/
theorem url_mem_alpha : ∀ c ∈ b64Alphabet, urlChar c ∈ urlAlphabet := by decide

/-- The URL-safe remapping never produces the padding character from an
alphabet character. -/
theorem url_ne_eq_alpha : ∀ c ∈ b64Alphabet, urlChar c ≠ '=' := by decide

/-- dropWhile skips a block of characters that all satisfy the predicate. -/
theorem dropWhile_append_of_all {p : Char → Bool} :
    ∀ l1 l2 : List Char, (∀ c ∈ l1, p c = true) →
      List.dropWhile p (l1 ++ l2) = List.dropWhile p l2 := by
  intro l1 l2 h
  induction l1 with
  | nil => rfl
  | cons a t ih =>
    simp only [List.cons_append, List.dropWhile_cons]
    rw [if_pos (h a (by simp))]
    exact ih (fun c hc => h c (by simp [hc]))

/-- Stripping trailing padding from a core followed by padding leaves
exactly the core. -/
theorem stripEq_append (core pad : List Char)
    (hcore : ∀ c ∈ core, c ≠ '=') (hpad : ∀ c ∈ pad, c = '=') :
    stripEq (core ++ pad) = core := by
  unfold stripEq
  rw [List.reverse_append]
  rw [dropWhile_append_of_all _ _ (by
    intro c hc
    have : c = '=' := hpad c (by simpa using hc)
    simp [this])]
  cases hrev : core.reverse with
  | nil =>
    have : core = [] := by simpa using congrArg List.reverse hrev
    simp [hrev, this]
  | cons a t =>
    have ha : a ∈ core := by
      rw [← List.mem_reverse, hrev]; simp
    rw [List.dropWhile_cons, if_neg (by simp [hcore a ha])]
    simpa using (congrArg List.reverse hrev).symm

/-- The JZB token is the URL-safe remapping of the Base64 core of the
deflated payload. -/
theorem encodeJzb_eq_core (stringify : Json → List Nat) (deflate : List Nat → List Nat)
    (payload : Json) (h : ∀ x ∈ deflate (stringify payload), x < 256) :
    encodeJzb stringify deflate payload =
      (b64Core (deflate (stringify payload))).map urlChar := by
  unfold encodeJzb
  rw [b64_encode_eq_core_pad, List.map_append]
  have hcore : ∀ c ∈ (b64Core (deflate (stringify payload))).map urlChar, c ≠ '=' := by
    intro c hc
    rcases List.mem_map.mp hc with ⟨d, hd, rfl⟩
    exact url_ne_eq_alpha d (b64_core_mem _ h d hd)
  have hpadall : ∀ c ∈ b64Pad (deflate (stringify payload)), c = '=' := by
    rcases b64_core_pad_shape (deflate (stringify payload)) with ⟨_, h2⟩ | ⟨_, h2⟩ | ⟨_, h2⟩ <;>
      rw [h2] <;> intro c hc <;> simp_all
  have hpadmap : (b64Pad (deflate (stringify payload))).map urlChar =
      b64Pad (deflate (stringify payload)) := by
    rcases b64_core_pad_shape (deflate (stringify payload)) with ⟨_, h2⟩ | ⟨_, h2⟩ | ⟨_, h2⟩ <;>
      rw [h2] <;> rfl
  rw [hpadmap]
  exact stripEq_append _ _ hcore hpadall

/-- Restoring the alphabet and the padding of a stripped token recovers
the full Base64 encoding. -/
theorem padB64_restore_core (bs : List Nat) (h : ∀ x ∈ bs, x < 256) :
    padB64 (((b64Core bs).map urlChar).map restoreChar) = b64EncodeBytes bs := by
  have hmap : ((b64Core bs).map urlChar).map restoreChar = b64Core bs := by
    rw [List.map_map]
    have : ∀ c ∈ b64Core bs, (restoreChar ∘ urlChar) c = id c := by
      intro c hc
      exact url_restore_alpha c (b64_core_mem bs h c hc)
    rw [List.map_congr_left this, List.map_id]
  rw [hmap, b64_encode_eq_core_pad]
  unfold padB64
  rcases b64_core_pad_shape bs with ⟨h1, h2⟩ | ⟨h1, h2⟩ | ⟨h1, h2⟩ <;> rw [h1, h2] <;> simp

/-! ## Cache and resolver helper lemmas -/

/-- Boolean membership test of a string list agrees with membership. -/
theorem contains_iff_mem {l : List String} {a : String} : l.contains a = true ↔ a ∈ l :=
  List.elem_iff

/-- Reading a key just written returns the written entry. -/
theorem cacheGet_set_self (c : List (String × CacheEntry)) (k : String) (e : CacheEntry) :
    cacheGet (cacheSet c k e) k = some e := by
  simp [cacheGet, cacheSet, List.find?_cons_of_pos]

/-- The fetch-and-store arm always counts as a remote fetch. -/
theorem fetchStore_fetched (opts : PendoProviderOptions) (s : ProviderState) (now : Nat)
    (k : String) (net : FetchOutcome) : (fetchStore opts s now k net).fetched = true := by
  unfold fetchStore
  cases fetchSegmentFlags net <;> rfl

/-- An unexpired cache entry is served without a fetch and without
changing the state. -/
theorem getSegmentFlags_hit (opts : PendoProviderOptions) (st : ProviderState) (now : Nat)
    (ctx : EvaluationContext) (net : FetchOutcome) (entry : CacheEntry)
    (hvis : falsyStr ctx.targetingKey = false)
    (hget : cacheGet st.cache (cacheKeyOf ctx) = some entry)
    (hexp : now < entry.expiresAt) :
    getSegmentFlags opts st now ctx net = ⟨Except.ok (some entry.flags), st, false⟩ := by
  simp only [getSegmentFlags, hvis, hget, Bool.false_eq_true, if_false]
  rw [if_pos hexp]

/-- A missing or expired cache entry leads to the fetch-and-store arm. -/
theorem getSegmentFlags_miss (opts : PendoProviderOptions) (st : ProviderState) (now : Nat)
    (ctx : EvaluationContext) (net : FetchOutcome)
    (hvis : falsyStr ctx.targetingKey = false)
    (hget : cacheGet st.cache (cacheKeyOf ctx) = none ∨
      ∃ entry, cacheGet st.cache (cacheKeyOf ctx) = some entry ∧ entry.expiresAt ≤ now) :
    getSegmentFlags opts st now ctx net = fetchStore opts st now (cacheKeyOf ctx) net := by
  rcases hget with hnone | ⟨entry, hsome, hexp⟩
  · simp only [getSegmentFlags, hvis, hnone, Bool.false_eq_true, if_false]
  · simp only [getSegmentFlags, hvis, hsome, Bool.false_eq_true, if_false]
    rw [if_neg (by omega)]

/-- On a cache miss with a successful fetch, the flags are returned and
stored under the composite key with expiry now plus the TTL. -/
theorem getSegmentFlags_store (opts : PendoProviderOptions) (st : ProviderState) (now : Nat)
    (ctx : EvaluationContext) (net : FetchOutcome) (flags : List String)
    (hvis : falsyStr ctx.targetingKey = false)
    (hget : cacheGet st.cache (cacheKeyOf ctx) = none ∨
      ∃ entry, cacheGet st.cache (cacheKeyOf ctx) = some entry ∧ entry.expiresAt ≤ now)
    (hfetch : fetchSegmentFlags net = Except.ok flags) :
    getSegmentFlags opts st now ctx net =
      ⟨Except.ok (some flags),
       { st with cache := cacheSet st.cache (cacheKeyOf ctx) ⟨flags, now + opts.cacheTtl⟩ },
       true⟩ := by
  rw [getSegmentFlags_miss opts st now ctx net hvis hget]
  unfold fetchStore
  rw [hfetch]

/-- The boolean resolver passes the state of getSegmentFlags through. -/
theorem resolveBoolean_state_eq (opts : PendoProviderOptions) (st : ProviderState)
    (now : Nat) (fk : String) (dv : Bool) (ctx : EvaluationContext) (net : FetchOutcome) :
    (resolveBooleanEvaluation opts st now fk dv ctx net).state =
      (getSegmentFlags opts st now ctx net).state := by
  simp only [resolveBooleanEvaluation]
  cases (getSegmentFlags opts st now ctx net).result with
  | error e => rfl
  | ok o => cases o with
    | none => rfl
    | some flags => rfl

/-- The boolean resolver passes the fetch flag of getSegmentFlags through. -/
theorem resolveBoolean_fetched_eq (opts : PendoProviderOptions) (st : ProviderState)
    (now : Nat) (fk : String) (dv : Bool) (ctx : EvaluationContext) (net : FetchOutcome) :
    (resolveBooleanEvaluation opts st now fk dv ctx net).fetched =
      (getSegmentFlags opts st now ctx net).fetched := by
  simp only [resolveBooleanEvaluation]
  cases (getSegmentFlags opts st now ctx net).result with
  | error e => rfl
  | ok o => cases o with
    | none => rfl
    | some flags => rfl

/-- When a flag set is available, the boolean details are determined by
membership of the flag key alone. -/
theorem resolveBoolean_of_flags (opts : PendoProviderOptions) (st : ProviderState)
    (now : Nat) (flagKey : String) (dv : Bool) (ctx : EvaluationContext)
    (net : FetchOutcome) (flags : List String)
    (hflags : (getSegmentFlags opts st now ctx net).result = Except.ok (some flags)) :
    (resolveBooleanEvaluation opts st now flagKey dv ctx net).details =
      { value := flags.contains flagKey,
        reason := if flags.contains flagKey then Reason.TARGETING_MATCH else Reason.DEFAULT,
        variant := some (if flags.contains flagKey then "on" else "off") } := by
  simp only [resolveBooleanEvaluation, hflags]

/-- Shape of a boolean resolution with default false: an ERROR result
carries value false, a DEFAULT result carries value false, and a
TARGETING_MATCH result carries value true. -/
theorem resolveBoolean_shape (opts : PendoProviderOptions) (st : ProviderState)
    (now : Nat) (fk : String) (ctx : EvaluationContext) (net : FetchOutcome) :
    ((resolveBooleanEvaluation opts st now fk false ctx net).details.reason = Reason.ERROR ∧
      (resolveBooleanEvaluation opts st now fk false ctx net).details.value = false) ∨
    ((resolveBooleanEvaluation opts st now fk false ctx net).details.reason = Reason.DEFAULT ∧
      (resolveBooleanEvaluation opts st now fk false ctx net).details.value = false) ∨
    ((resolveBooleanEvaluation opts st now fk false ctx net).details.reason =
        Reason.TARGETING_MATCH ∧
      (resolveBooleanEvaluation opts st now fk false ctx net).details.value = true) := by
  simp only [resolveBooleanEvaluation]
  cases (getSegmentFlags opts st now ctx net).result with
  | error e => simp
  | ok o =>
    cases o with
    | none => simp
    | some flags =>
      cases hc : flags.contains fk
      · have hm : fk ∉ flags := by
          intro hmem
          have h2 := contains_iff_mem.mpr hmem
          rw [h2] at hc
          simp at hc
        simp [hc, hm]
      · have hm : fk ∈ flags := contains_iff_mem.mp hc
        simp [hc, hm]

/-! ## Claim theorems -/

/-- C1: for every flagKey and every context whose visitor id is present,
once a flag set has been obtained (from cache or remote, summarized by
getSegmentFlags returning it), resolveBooleanEvaluation returns value
true with reason TARGETING_MATCH and variant on exactly when the flag
key is a member of the flag set, and value false with reason DEFAULT
and variant off exactly when it is not; the defaultValue argument does
not influence this result. -/
theorem c1_boolean_resolution_membership (opts : PendoProviderOptions)
    (st : ProviderState) (now : Nat) (flagKey : String) (dv dv2 : Bool)
    (ctx : EvaluationContext) (net : FetchOutcome) (flags : List String)
    (hflags : (getSegmentFlags opts st now ctx net).result = Except.ok (some flags)) :
    ((resolveBooleanEvaluation opts st now flagKey dv ctx net).details =
        { value := true, reason := Reason.TARGETING_MATCH, variant := some "on" }
      ↔ flagKey ∈ flags) ∧
    ((resolveBooleanEvaluation opts st now flagKey dv ctx net).details =
        { value := false, reason := Reason.DEFAULT, variant := some "off" }
      ↔ flagKey ∉ flags) ∧
    (resolveBooleanEvaluation opts st now flagKey dv ctx net).details =
      (resolveBooleanEvaluation opts st now flagKey dv2 ctx net).details := by
  rw [resolveBoolean_of_flags opts st now flagKey dv ctx net flags hflags,
      resolveBoolean_of_flags opts st now flagKey dv2 ctx net flags hflags]
  by_cases hm : flagKey ∈ flags
  · have hc : flags.contains flagKey = true := contains_iff_mem.mpr hm
    simp [hc, hm]
  · have hc : flags.contains flagKey = false := by
      rw [← Bool.not_eq_true]
      exact fun h => hm (contains_iff_mem.mp h)
    simp [hc, hm, ResolutionDetails.mk.injEq]

/-- C1 witness: with a cached-free state and a 200 response carrying
feature-a and feature-b, the hypothesis of the claim theorem holds and
the conclusion follows for flag feature-a. -/
theorem c1_witness :
    ((getSegmentFlags { apiKey := "test-api-key", defaultUrl := "https://example.com" }
        ⟨ServerProviderStatus.NOT_READY, []⟩ 0 { targetingKey := some "user-123" }
        (FetchOutcome.response
          { ok := true, status := 200, segmentFlags := some ["feature-a", "feature-b"] })).result =
      Except.ok (some ["feature-a", "feature-b"])) ∧
    (((resolveBooleanEvaluation { apiKey := "test-api-key", defaultUrl := "https://example.com" }
        ⟨ServerProviderStatus.NOT_READY, []⟩ 0 "feature-a" false { targetingKey := some "user-123" }
        (FetchOutcome.response
          { ok := true, status := 200, segmentFlags := some ["feature-a", "feature-b"] })).details =
        { value := true, reason := Reason.TARGETING_MATCH, variant := some "on" }
      ↔ "feature-a" ∈ ["feature-a", "feature-b"]) ∧
    ((resolveBooleanEvaluation { apiKey := "test-api-key", defaultUrl := "https://example.com" }
        ⟨ServerProviderStatus.NOT_READY, []⟩ 0 "feature-a" false { targetingKey := some "user-123" }
        (FetchOutcome.response
          { ok := true, status := 200, segmentFlags := some ["feature-a", "feature-b"] })).details =
        { value := false, reason := Reason.DEFAULT, variant := some "off" }
      ↔ "feature-a" ∉ ["feature-a", "feature-b"]) ∧
    (resolveBooleanEvaluation { apiKey := "test-api-key", defaultUrl := "https://example.com" }
        ⟨ServerProviderStatus.NOT_READY, []⟩ 0 "feature-a" false { targetingKey := some "user-123" }
        (FetchOutcome.response
          { ok := true, status := 200, segmentFlags := some ["feature-a", "feature-b"] })).details =
      (resolveBooleanEvaluation { apiKey := "test-api-key", defaultUrl := "https://example.com" }
        ⟨ServerProviderStatus.NOT_READY, []⟩ 0 "feature-a" true { targetingKey := some "user-123" }
        (FetchOutcome.response
          { ok := true, status := 200, segmentFlags := some ["feature-a", "feature-b"] })).details) :=
  ⟨rfl, c1_boolean_resolution_membership
    { apiKey := "test-api-key", defaultUrl := "https://example.com" }
    ⟨ServerProviderStatus.NOT_READY, []⟩ 0 "feature-a" false true
    { targetingKey := some "user-123" }
    (FetchOutcome.response
      { ok := true, status := 200, segmentFlags := some ["feature-a", "feature-b"] })
    ["feature-a", "feature-b"] rfl⟩

/-- C2: the remote-fetch outcome is a deterministic function of the HTTP
status: 202 and 451 yield an empty flag set (which is cached, not an
error), 429 raises the rate-limit error, any other non-success status
raises the generic error carrying status and status text, a transport
failure raises its message; and every raised remote error is caught
inside resolveBooleanEvaluation and converted into an ERROR result with
errorCode GENERAL carrying the default value and the message, so no
exception propagates (the resolver is a total function into
ResolveResult). -/
theorem c2_remote_error_mapping (r : HttpResponse) (msg : String)
    (opts : PendoProviderOptions) (st : ProviderState) (now : Nat) (flagKey : String)
    (dv : Bool) (ctx : EvaluationContext) (net : FetchOutcome) :
    (r.status = 202 → fetchSegmentFlags (FetchOutcome.response r) = Except.ok []) ∧
    (r.status = 451 → fetchSegmentFlags (FetchOutcome.response r) = Except.ok []) ∧
    (r.status = 429 → fetchSegmentFlags (FetchOutcome.response r) =
        Except.error "Pendo API rate limit exceeded") ∧
    (r.status ≠ 202 → r.status ≠ 429 → r.status ≠ 451 → r.ok = false →
      fetchSegmentFlags (FetchOutcome.response r) =
        Except.error ("Pendo API error: " ++ toString r.status ++ " " ++ r.statusText)) ∧
    (fetchSegmentFlags (FetchOutcome.failure msg) = Except.error msg) ∧
    ((r.status = 202 ∨ r.status = 451) → falsyStr ctx.targetingKey = false →
      cacheGet st.cache (cacheKeyOf ctx) = none →
      getSegmentFlags opts st now ctx (FetchOutcome.response r) =
        ⟨Except.ok (some []),
         { st with cache := cacheSet st.cache (cacheKeyOf ctx) ⟨[], now + opts.cacheTtl⟩ },
         true⟩) ∧
    (∀ e, (getSegmentFlags opts st now ctx net).result = Except.error e →
      (resolveBooleanEvaluation opts st now flagKey dv ctx net).details =
        { value := dv, reason := Reason.ERROR, errorCode := some ErrorCode.GENERAL,
          errorMessage := some e }) := by
  refine ⟨?_, ?_, ?_, ?_, rfl, ?_, ?_⟩
  · intro h; simp [fetchSegmentFlags, h]
  · intro h; simp [fetchSegmentFlags, h]
  · intro h; simp [fetchSegmentFlags, h]
  · intro h202 h429 h451 hok
    simp [fetchSegmentFlags, h202, h429, h451, hok]
  · intro hstat hvis hmiss
    refine getSegmentFlags_store opts st now ctx _ [] hvis (Or.inl hmiss) ?_
    rcases hstat with h | h <;> simp [fetchSegmentFlags, h]
  · intro e herr
    simp only [resolveBooleanEvaluation, herr]

/-- C2 witness: at status 202, 451, 429, a 500 with statusText, a failed
transport and an errored resolution, the mapping of the claim theorem
holds at concrete inputs. -/
theorem c2_witness :
    (fetchSegmentFlags (FetchOutcome.response { ok := false, status := 202 }) =
      Except.ok []) ∧
    (fetchSegmentFlags (FetchOutcome.response { ok := false, status := 451 }) =
      Except.ok []) ∧
    (fetchSegmentFlags (FetchOutcome.response
        { ok := false, status := 429, statusText := "Too Many Requests" }) =
      Except.error "Pendo API rate limit exceeded") ∧
    (fetchSegmentFlags (FetchOutcome.response
        { ok := false, status := 500, statusText := "Internal Server Error" }) =
      Except.error ("Pendo API error: " ++ toString 500 ++ " " ++ "Internal Server Error")) ∧
    (fetchSegmentFlags (FetchOutcome.failure "Network error") =
      Except.error "Network error") ∧
    ((resolveBooleanEvaluation { apiKey := "test-api-key", defaultUrl := "https://example.com" }
        ⟨ServerProviderStatus.NOT_READY, []⟩ 0 "feature-a" true { targetingKey := some "user-123" }
        (FetchOutcome.failure "Network error")).details =
      { value := true, reason := Reason.ERROR, errorCode := some ErrorCode.GENERAL,
        errorMessage := some "Network error" }) := by
  have h429 := c2_remote_error_mapping
    { ok := false, status := 429, statusText := "Too Many Requests" } ""
    { apiKey := "test-api-key", defaultUrl := "https://example.com" }
    ⟨ServerProviderStatus.NOT_READY, []⟩ 0 "feature-a" true { targetingKey := some "user-123" }
    (FetchOutcome.failure "Network error")
  have h500 := c2_remote_error_mapping
    { ok := false, status := 500, statusText := "Internal Server Error" } "Network error"
    { apiKey := "test-api-key", defaultUrl := "https://example.com" }
    ⟨ServerProviderStatus.NOT_READY, []⟩ 0 "feature-a" true { targetingKey := some "user-123" }
    (FetchOutcome.failure "Network error")
  have h202 := c2_remote_error_mapping { ok := false, status := 202 } ""
    { apiKey := "test-api-key", defaultUrl := "https://example.com" }
    ⟨ServerProviderStatus.NOT_READY, []⟩ 0 "feature-a" true { targetingKey := some "user-123" }
    (FetchOutcome.failure "Network error")
  have h451 := c2_remote_error_mapping { ok := false, status := 451 } ""
    { apiKey := "test-api-key", defaultUrl := "https://example.com" }
    ⟨ServerProviderStatus.NOT_READY, []⟩ 0 "feature-a" true { targetingKey := some "user-123" }
    (FetchOutcome.failure "Network error")
  exact ⟨h202.1 rfl, h451.2.1 rfl, h429.2.2.1 rfl,
    h500.2.2.2.1 (by decide) (by decide) (by decide) rfl,
    h500.2.2.2.2.1,
    h500.2.2.2.2.2.2 "Network error" rfl⟩

/-- C3: for every JSON-serializable payload, the JZB token consists only
of characters of the class A-Z a-z 0-9 minus underscore and is nonempty,
and decoding (restore alphabet and padding, Base64-decode, inflate,
JSON-parse) reproduces the payload exactly. The external libraries
(JSON.stringify and JSON.parse, pako.deflate and pako.inflate) enter as
parameters; their contracts, that inflate inverts deflate, that parse
inverts stringify, and that the deflated stream is a nonempty byte
list, are the hypotheses. -/
theorem c3_jzb_roundtrip (stringify : Json → List Nat) (deflate inflate : List Nat → List Nat)
    (parse : List Nat → Option Json) (payload : Json)
    (hbytes : ∀ x ∈ deflate (stringify payload), x < 256)
    (hne : deflate (stringify payload) ≠ [])
    (hinflate : inflate (deflate (stringify payload)) = stringify payload)
    (hparse : parse (stringify payload) = some payload) :
    encodeJzb stringify deflate payload ≠ [] ∧
    (∀ c ∈ encodeJzb stringify deflate payload, c ∈ urlAlphabet) ∧
    decodeJzb inflate parse (encodeJzb stringify deflate payload) = some payload := by
  refine ⟨?_, ?_, ?_⟩
  · rw [encodeJzb_eq_core _ _ _ hbytes]
    intro hmap
    exact b64_core_ne_nil _ hne (by simpa using hmap)
  · rw [encodeJzb_eq_core _ _ _ hbytes]
    intro c hc
    rcases List.mem_map.mp hc with ⟨d, hd, rfl⟩
    exact url_mem_alpha d (b64_core_mem _ hbytes d hd)
  · unfold decodeJzb
    rw [encodeJzb_eq_core _ _ _ hbytes, padB64_restore_core _ hbytes,
        b64_decode_encode _ hbytes, hinflate, hparse]

/-- C3 witness: with the identity pair standing for deflate and inflate,
a two-byte serialization of the empty object and its parser, the
hypotheses hold and the encoded token round-trips. -/
theorem c3_witness :
    (∀ x ∈ ([123, 125] : List Nat), x < 256) ∧
    ([123, 125] : List Nat) ≠ [] ∧
    decodeJzb (fun l => l) (fun bs => if bs = [123, 125] then some (Json.obj []) else none)
        (encodeJzb (fun _ => [123, 125]) (fun l => l) (Json.obj [])) = some (Json.obj []) := by
  refine ⟨by decide, by decide, ?_⟩
  exact (c3_jzb_roundtrip (fun _ => [123, 125]) (fun l => l) (fun l => l)
    (fun bs => if bs = [123, 125] then some (Json.obj []) else none) (Json.obj [])
    (by decide) (by decide) rfl (by simp)).2.2

/-- C4: two resolutions with identical visitor and account whose second
call occurs strictly before the expiry of the first fetch trigger
exactly one remote fetch (the first fetches, the second does not); a
cache lookup treats an entry as absent both when none exists and when
the time has reached expiresAt, so a resolution after the TTL fetches
again; and after clearCache every resolution with a present visitor
fetches again. -/
theorem c4_cache_consistency (opts : PendoProviderOptions) (st : ProviderState)
    (t1 t2 now2 : Nat) (ctx : EvaluationContext) (net1 net2 net3 : FetchOutcome)
    (fk1 fk2 : String) (dv1 dv2 : Bool) (flags : List String)
    (hvis : falsyStr ctx.targetingKey = false)
    (hmiss : cacheGet st.cache (cacheKeyOf ctx) = none)
    (hfetch : fetchSegmentFlags net1 = Except.ok flags) :
    (resolveBooleanEvaluation opts st t1 fk1 dv1 ctx net1).fetched = true ∧
    (t2 < t1 + opts.cacheTtl →
      (resolveBooleanEvaluation opts
        (resolveBooleanEvaluation opts st t1 fk1 dv1 ctx net1).state
        t2 fk2 dv2 ctx net2).fetched = false) ∧
    (t1 + opts.cacheTtl ≤ t2 →
      (resolveBooleanEvaluation opts
        (resolveBooleanEvaluation opts st t1 fk1 dv1 ctx net1).state
        t2 fk2 dv2 ctx net2).fetched = true) ∧
    (∀ st2 : ProviderState,
      (cacheGet st2.cache (cacheKeyOf ctx) = none ∨
        ∃ entry, cacheGet st2.cache (cacheKeyOf ctx) = some entry ∧ entry.expiresAt ≤ t2) →
      (getSegmentFlags opts st2 t2 ctx net2).fetched = true) ∧
    (∀ (st3 : ProviderState) (ctx2 : EvaluationContext),
      falsyStr ctx2.targetingKey = false →
      (getSegmentFlags opts (clearCache st3) now2 ctx2 net3).fetched = true) := by
  have hstore := getSegmentFlags_store opts st t1 ctx net1 flags hvis (Or.inl hmiss) hfetch
  have hstate : (resolveBooleanEvaluation opts st t1 fk1 dv1 ctx net1).state =
      { st with cache := cacheSet st.cache (cacheKeyOf ctx) ⟨flags, t1 + opts.cacheTtl⟩ } := by
    rw [resolveBoolean_state_eq, hstore]
  refine ⟨?_, ?_, ?_, ?_, ?_⟩
  · rw [resolveBoolean_fetched_eq, hstore]
  · intro ht
    have hhit := getSegmentFlags_hit opts
      (resolveBooleanEvaluation opts st t1 fk1 dv1 ctx net1).state t2 ctx net2
      ⟨flags, t1 + opts.cacheTtl⟩ hvis (by rw [hstate]; exact cacheGet_set_self _ _ _) ht
    rw [resolveBoolean_fetched_eq, hhit]
  · intro ht
    have hmiss2 := getSegmentFlags_miss opts
      (resolveBooleanEvaluation opts st t1 fk1 dv1 ctx net1).state t2 ctx net2 hvis
      (Or.inr ⟨⟨flags, t1 + opts.cacheTtl⟩, by rw [hstate]; exact cacheGet_set_self _ _ _, ht⟩)
    rw [resolveBoolean_fetched_eq, hmiss2]
    exact fetchStore_fetched _ _ _ _ _
  · intro st2 hget
    rw [getSegmentFlags_miss opts st2 t2 ctx net2 hvis hget]
    exact fetchStore_fetched _ _ _ _ _
  · intro st3 ctx2 hvis2
    rw [getSegmentFlags_miss opts (clearCache st3) now2 ctx2 net3 hvis2 (Or.inl rfl)]
    exact fetchStore_fetched _ _ _ _ _

/-- C4 witness: from an empty cache, the first resolution at time 0
fetches, a second one at time 50 (inside the default 60000 ms TTL) does
not, one at time 60000 fetches again, and after clearCache the next
resolution fetches. -/
theorem c4_witness :
    (falsyStr (some "user-123" : Option String) = false) ∧
    (cacheGet ([] : List (String × CacheEntry))
      (cacheKeyOf { targetingKey := some "user-123", accountId := some "account-456" }) =
      none) ∧
    (fetchSegmentFlags (FetchOutcome.response
      { ok := true, status := 200, segmentFlags := some ["flag1"] }) =
      Except.ok ["flag1"]) ∧
    (resolveBooleanEvaluation { apiKey := "test-api-key", defaultUrl := "https://example.com" }
      ⟨ServerProviderStatus.NOT_READY, []⟩ 0 "flag1" false
      { targetingKey := some "user-123", accountId := some "account-456" }
      (FetchOutcome.response
        { ok := true, status := 200, segmentFlags := some ["flag1"] })).fetched = true ∧
    (resolveBooleanEvaluation { apiKey := "test-api-key", defaultUrl := "https://example.com" }
      (resolveBooleanEvaluation { apiKey := "test-api-key", defaultUrl := "https://example.com" }
        ⟨ServerProviderStatus.NOT_READY, []⟩ 0 "flag1" false
        { targetingKey := some "user-123", accountId := some "account-456" }
        (FetchOutcome.response
          { ok := true, status := 200, segmentFlags := some ["flag1"] })).state
      50 "flag2" false { targetingKey := some "user-123", accountId := some "account-456" }
      (FetchOutcome.response
        { ok := true, status := 200, segmentFlags := some ["flag1"] })).fetched = false ∧
    (resolveBooleanEvaluation { apiKey := "test-api-key", defaultUrl := "https://example.com" }
      (resolveBooleanEvaluation { apiKey := "test-api-key", defaultUrl := "https://example.com" }
        ⟨ServerProviderStatus.NOT_READY, []⟩ 0 "flag1" false
        { targetingKey := some "user-123", accountId := some "account-456" }
        (FetchOutcome.response
          { ok := true, status := 200, segmentFlags := some ["flag1"] })).state
      60000 "flag2" false { targetingKey := some "user-123", accountId := some "account-456" }
      (FetchOutcome.response
        { ok := true, status := 200, segmentFlags := some ["flag1"] })).fetched = true ∧
    (getSegmentFlags { apiKey := "test-api-key", defaultUrl := "https://example.com" }
      (clearCache ⟨ServerProviderStatus.READY,
        [("user-123:account-456", ⟨["flag1"], 60000⟩)]⟩) 1
      { targetingKey := some "user-123", accountId := some "account-456" }
      (FetchOutcome.response
        { ok := true, status := 200, segmentFlags := some ["flag1"] })).fetched = true := by
  have h := c4_cache_consistency
    { apiKey := "test-api-key", defaultUrl := "https://example.com" }
    ⟨ServerProviderStatus.NOT_READY, []⟩ 0 50 1
    { targetingKey := some "user-123", accountId := some "account-456" }
    (FetchOutcome.response { ok := true, status := 200, segmentFlags := some ["flag1"] })
    (FetchOutcome.response { ok := true, status := 200, segmentFlags := some ["flag1"] })
    (FetchOutcome.response { ok := true, status := 200, segmentFlags := some ["flag1"] })
    "flag1" "flag2" false false ["flag1"] rfl rfl rfl
  have h2 := c4_cache_consistency
    { apiKey := "test-api-key", defaultUrl := "https://example.com" }
    ⟨ServerProviderStatus.NOT_READY, []⟩ 0 60000 1
    { targetingKey := some "user-123", accountId := some "account-456" }
    (FetchOutcome.response { ok := true, status := 200, segmentFlags := some ["flag1"] })
    (FetchOutcome.response { ok := true, status := 200, segmentFlags := some ["flag1"] })
    (FetchOutcome.response { ok := true, status := 200, segmentFlags := some ["flag1"] })
    "flag1" "flag2" false false ["flag1"] rfl rfl rfl
  exact ⟨rfl, rfl, rfl, h.1, h.2.1 (by decide), h2.2.2.1 (by decide),
    h.2.2.2.2 ⟨ServerProviderStatus.READY, [("user-123:account-456", ⟨["flag1"], 60000⟩)]⟩
      { targetingKey := some "user-123", accountId := some "account-456" } rfl⟩

/-- C5: when the context has no visitor id (targetingKey absent or
empty), every resolution operation returns the unchanged default value
with reason DEFAULT and variant default, the state is unchanged and no
remote fetch is performed. -/
theorem c5_missing_visitor_default (opts : PendoProviderOptions) (st : ProviderState)
    (now : Nat) (flagKey : String) (dvB : Bool) (dvS : String) (dvN : Int) (dvO : Json)
    (ctx : EvaluationContext) (net : FetchOutcome)
    (hvis : falsyStr ctx.targetingKey = true) :
    resolveBooleanEvaluation opts st now flagKey dvB ctx net =
      ⟨{ value := dvB, reason := Reason.DEFAULT, variant := some "default" }, st, false⟩ ∧
    resolveStringEvaluation opts st now flagKey dvS ctx net =
      ⟨{ value := dvS, reason := Reason.DEFAULT, variant := some "default" }, st, false⟩ ∧
    resolveNumberEvaluation opts st now flagKey dvN ctx net =
      ⟨{ value := dvN, reason := Reason.DEFAULT, variant := some "default" }, st, false⟩ ∧
    resolveObjectEvaluation opts st now flagKey dvO ctx net =
      ⟨{ value := dvO, reason := Reason.DEFAULT, variant := some "default" }, st, false⟩ := by
  have hg : getSegmentFlags opts st now ctx net = ⟨Except.ok none, st, false⟩ := by
    simp only [getSegmentFlags, hvis, if_true]
  have hb : resolveBooleanEvaluation opts st now flagKey false ctx net =
      ⟨{ value := false, reason := Reason.DEFAULT, variant := some "default" }, st, false⟩ := by
    simp only [resolveBooleanEvaluation, hg]
  refine ⟨?_, ?_, ?_, ?_⟩
  · simp only [resolveBooleanEvaluation, hg]
  · simp only [resolveStringEvaluation, hb]
    rfl
  · simp only [resolveNumberEvaluation, hb]
    rfl
  · simp only [resolveObjectEvaluation, hb]
    rfl

/-- C5 witness: with an empty context, each of the four resolutions
returns its default with variant default, an unchanged state and no
fetch. -/
theorem c5_witness :
    (falsyStr ({} : EvaluationContext).targetingKey = true) ∧
    (resolveBooleanEvaluation { apiKey := "test-api-key", defaultUrl := "https://example.com" }
      ⟨ServerProviderStatus.READY, []⟩ 0 "feature-a" true {}
      (FetchOutcome.failure "unused") =
      ⟨{ value := true, reason := Reason.DEFAULT, variant := some "default" },
       ⟨ServerProviderStatus.READY, []⟩, false⟩) ∧
    (resolveStringEvaluation { apiKey := "test-api-key", defaultUrl := "https://example.com" }
      ⟨ServerProviderStatus.READY, []⟩ 0 "feature-a" "my-default" {}
      (FetchOutcome.failure "unused") =
      ⟨{ value := "my-default", reason := Reason.DEFAULT, variant := some "default" },
       ⟨ServerProviderStatus.READY, []⟩, false⟩) ∧
    (resolveNumberEvaluation { apiKey := "test-api-key", defaultUrl := "https://example.com" }
      ⟨ServerProviderStatus.READY, []⟩ 0 "feature-a" 42 {}
      (FetchOutcome.failure "unused") =
      ⟨{ value := 42, reason := Reason.DEFAULT, variant := some "default" },
       ⟨ServerProviderStatus.READY, []⟩, false⟩) ∧
    (resolveObjectEvaluation { apiKey := "test-api-key", defaultUrl := "https://example.com" }
      ⟨ServerProviderStatus.READY, []⟩ 0 "feature-a" (Json.obj []) {}
      (FetchOutcome.failure "unused") =
      ⟨{ value := Json.obj [], reason := Reason.DEFAULT, variant := some "default" },
       ⟨ServerProviderStatus.READY, []⟩, false⟩) := by
  have h := c5_missing_visitor_default
    { apiKey := "test-api-key", defaultUrl := "https://example.com" }
    ⟨ServerProviderStatus.READY, []⟩ 0 "feature-a" true "my-default" 42 (Json.obj []) {}
    (FetchOutcome.failure "unused") rfl
  exact ⟨rfl, h.1, h.2.1, h.2.2.1, h.2.2.2⟩

/-- C6: each typed resolver equals the spec derivation rule applied to
the result of resolveBooleanEvaluation with defaultValue false, with the
on and off representations on and off for strings, 1 and 0 for numbers,
and the enabled object for objects; state and fetch flag pass through. -/
theorem c6_typed_resolvers_derived (opts : PendoProviderOptions) (st : ProviderState)
    (now : Nat) (flagKey : String) (dvS : String) (dvN : Int) (dvO : Json)
    (ctx : EvaluationContext) (net : FetchOutcome) :
    resolveStringEvaluation opts st now flagKey dvS ctx net =
      ⟨specDeriveRule dvS "on" "off"
        (resolveBooleanEvaluation opts st now flagKey false ctx net).details,
       (resolveBooleanEvaluation opts st now flagKey false ctx net).state,
       (resolveBooleanEvaluation opts st now flagKey false ctx net).fetched⟩ ∧
    resolveNumberEvaluation opts st now flagKey dvN ctx net =
      ⟨specDeriveRule dvN 1 0
        (resolveBooleanEvaluation opts st now flagKey false ctx net).details,
       (resolveBooleanEvaluation opts st now flagKey false ctx net).state,
       (resolveBooleanEvaluation opts st now flagKey false ctx net).fetched⟩ ∧
    resolveObjectEvaluation opts st now flagKey dvO ctx net =
      ⟨specDeriveRule dvO (Json.obj [("enabled", Json.bool true)])
          (Json.obj [("enabled", Json.bool false)])
        (resolveBooleanEvaluation opts st now flagKey false ctx net).details,
       (resolveBooleanEvaluation opts st now flagKey false ctx net).state,
       (resolveBooleanEvaluation opts st now flagKey false ctx net).fetched⟩ := by
  refine ⟨?_, ?_, ?_⟩
  · simp only [resolveStringEvaluation, specDeriveRule]
    split
    · rfl
    · split <;> rfl
  · simp only [resolveNumberEvaluation, specDeriveRule]
    split
    · rfl
    · split <;> rfl
  · simp only [resolveObjectEvaluation, specDeriveRule]
    split
    · rfl
    · split
      · rfl
      · cases hv : (resolveBooleanEvaluation opts st now flagKey false ctx net).details.value <;>
          simp [hv]

/-- C7: initialize rejects exactly when the configured api key or the
default url is empty, with the api-key error taking precedence, and
otherwise sets the status to READY; onClose sets the status to NOT_READY
and empties the cache. -/
theorem c7_lifecycle (opts : PendoProviderOptions) (st : ProviderState) :
    (opts.apiKey = "" →
      initializeProvider opts st = Except.error "Pendo API key is required") ∧
    (opts.apiKey ≠ "" → opts.defaultUrl = "" → initializeProvider opts st =
      Except.error "Pendo defaultUrl is required for server-side evaluation") ∧
    (opts.apiKey ≠ "" → opts.defaultUrl ≠ "" →
      initializeProvider opts st = Except.ok { st with status := ServerProviderStatus.READY }) ∧
    ((∃ e, initializeProvider opts st = Except.error e) ↔
      (opts.apiKey = "" ∨ opts.defaultUrl = "")) ∧
    (onClose st = { status := ServerProviderStatus.NOT_READY, cache := [] }) := by
  refine ⟨?_, ?_, ?_, ?_, rfl⟩
  · intro h
    simp [initializeProvider, String.isEmpty_iff, h]
  · intro h1 h2
    simp [initializeProvider, String.isEmpty_iff, h1, h2]
  · intro h1 h2
    simp [initializeProvider, String.isEmpty_iff, h1, h2]
  · constructor
    · rintro ⟨e, he⟩
      by_cases h1 : opts.apiKey = ""
      · exact Or.inl h1
      · by_cases h2 : opts.defaultUrl = ""
        · exact Or.inr h2
        · simp [initializeProvider, String.isEmpty_iff, h1, h2] at he
    · rintro (h | h)
      · exact ⟨"Pendo API key is required",
          by simp [initializeProvider, String.isEmpty_iff, h]⟩
      · by_cases h1 : opts.apiKey = ""
        · exact ⟨"Pendo API key is required",
            by simp [initializeProvider, String.isEmpty_iff, h1]⟩
        · exact ⟨"Pendo defaultUrl is required for server-side evaluation",
            by simp [initializeProvider, String.isEmpty_iff, h1, h]⟩

/-- C7 witness: an empty api key fails with the api-key error even when
the url is also empty, an empty url fails with the url error, a full
configuration initializes to READY, and onClose resets the state. -/
theorem c7_witness :
    (initializeProvider { apiKey := "", defaultUrl := "" }
      ⟨ServerProviderStatus.NOT_READY, []⟩ =
      Except.error "Pendo API key is required") ∧
    (initializeProvider { apiKey := "test-key", defaultUrl := "" }
      ⟨ServerProviderStatus.NOT_READY, []⟩ =
      Except.error "Pendo defaultUrl is required for server-side evaluation") ∧
    (initializeProvider { apiKey := "test-api-key", defaultUrl := "https://example.com" }
      ⟨ServerProviderStatus.NOT_READY, []⟩ =
      Except.ok ⟨ServerProviderStatus.READY, []⟩) ∧
    (onClose ⟨ServerProviderStatus.READY, [("user-123:", ⟨["flag1"], 60000⟩)]⟩ =
      ⟨ServerProviderStatus.NOT_READY, []⟩) :=
  ⟨(c7_lifecycle { apiKey := "", defaultUrl := "" }
      ⟨ServerProviderStatus.NOT_READY, []⟩).1 rfl,
   (c7_lifecycle { apiKey := "test-key", defaultUrl := "" }
      ⟨ServerProviderStatus.NOT_READY, []⟩).2.1 (by decide) rfl,
   (c7_lifecycle { apiKey := "test-api-key", defaultUrl := "https://example.com" }
      ⟨ServerProviderStatus.NOT_READY, []⟩).2.2.1 (by decide) (by decide),
   (c7_lifecycle { apiKey := "x", defaultUrl := "y" }
      ⟨ServerProviderStatus.READY, [("user-123:", ⟨["flag1"], 60000⟩)]⟩).2.2.2.2⟩

/-- C8: track checks its preconditions in order, first the configured
secret, then the visitor id, and a violated precondition yields the
matching warning and no request; when both hold it produces the POST of
the payload with type track, event, visitorId, optional accountId,
timestamp and properties, carrying the secret header; and delivery of
the fire-and-forget request turns a transport failure into a log entry,
never into an escaping error. -/
theorem c8_track_preconditions (opts : PendoProviderOptions) (eventName : String)
    (ctx : EvaluationContext) (props : List (String × Json)) (now : Nat) :
    (track opts eventName ctx props now = TrackOutcome.warnNoSecret ↔
      falsyStr opts.trackEventSecret = true) ∧
    (track opts eventName ctx props now = TrackOutcome.warnNoVisitor ↔
      (falsyStr opts.trackEventSecret = false ∧ falsyStr ctx.targetingKey = true)) ∧
    (falsyStr opts.trackEventSecret = false → falsyStr ctx.targetingKey = false →
      track opts eventName ctx props now = TrackOutcome.sent
        { url := opts.baseUrl ++ "/data/track", method := "POST",
          contentType := "application/json",
          secretHeader := opts.trackEventSecret.getD "",
          payload := { type := "track", event := eventName,
                       visitorId := ctx.targetingKey.getD "",
                       accountId := ctx.accountId, timestamp := now,
                       properties := props } }) ∧
    (∀ transport transport2 : TrackRequest → Except String Unit,
      performTrack TrackOutcome.warnNoSecret transport =
        performTrack TrackOutcome.warnNoSecret transport2 ∧
      performTrack TrackOutcome.warnNoVisitor transport =
        performTrack TrackOutcome.warnNoVisitor transport2) ∧
    (∀ (req : TrackRequest) (e : String),
      performTrack (TrackOutcome.sent req) (fun _ => Except.error e) =
        ["[PendoProvider] Failed to track event: " ++ e]) := by
  refine ⟨?_, ?_, ?_, fun t t2 => ⟨rfl, rfl⟩, fun req e => rfl⟩
  · cases h1 : falsyStr opts.trackEventSecret <;>
      cases h2 : falsyStr ctx.targetingKey <;> simp [track, h1, h2]
  · cases h1 : falsyStr opts.trackEventSecret <;>
      cases h2 : falsyStr ctx.targetingKey <;> simp [track, h1, h2]
  · intro h1 h2
    simp [track, h1, h2]

/-- C8 witness: without a secret the outcome is the secret warning even
though the visitor is present, with a secret and no visitor the visitor
warning, and with both the concrete POST request; a failing transport
produces the logged failure line. -/
theorem c8_witness :
    (track { apiKey := "test-api-key", defaultUrl := "https://example.com" }
      "button_clicked" { targetingKey := some "user-123" } [] 7 =
      TrackOutcome.warnNoSecret) ∧
    (track { apiKey := "test-api-key", defaultUrl := "https://example.com",
             trackEventSecret := some "test-secret" }
      "button_clicked" {} [] 7 = TrackOutcome.warnNoVisitor) ∧
    (track { apiKey := "test-api-key", defaultUrl := "https://example.com",
             trackEventSecret := some "test-secret" }
      "button_clicked" { targetingKey := some "user-123", accountId := some "account-456" }
      [("value", Json.num 42)] 7 =
      TrackOutcome.sent
        { url := "https://data.pendo.io" ++ "/data/track", method := "POST",
          contentType := "application/json", secretHeader := "test-secret",
          payload := { type := "track", event := "button_clicked",
                       visitorId := "user-123", accountId := some "account-456",
                       timestamp := 7, properties := [("value", Json.num 42)] } }) ∧
    (performTrack (TrackOutcome.sent
        { url := "https://data.pendo.io/data/track", method := "POST",
          contentType := "application/json", secretHeader := "test-secret",
          payload := { type := "track", event := "button_clicked",
                       visitorId := "user-123", accountId := none,
                       timestamp := 7, properties := [] } })
      (fun _ => Except.error "Network error") =
      ["[PendoProvider] Failed to track event: " ++ "Network error"]) := by
  have hns := c8_track_preconditions
    { apiKey := "test-api-key", defaultUrl := "https://example.com" }
    "button_clicked" { targetingKey := some "user-123" } [] 7
  have hnv := c8_track_preconditions
    { apiKey := "test-api-key", defaultUrl := "https://example.com",
      trackEventSecret := some "test-secret" }
    "button_clicked" {} [] 7
  have hok := c8_track_preconditions
    { apiKey := "test-api-key", defaultUrl := "https://example.com",
      trackEventSecret := some "test-secret" }
    "button_clicked" { targetingKey := some "user-123", accountId := some "account-456" }
    [("value", Json.num 42)] 7
  exact ⟨hns.1.mpr rfl, hnv.2.1.mpr ⟨rfl, rfl⟩, hok.2.2.1 rfl rfl,
    hok.2.2.2.2 _ "Network error"⟩

/-- C9 counterexample: with defaultValue off and a flag set not
containing the key, resolveStringEvaluation does return the value off
(through the DEFAULT branch), and with defaultValue on it returns the
value on with reason DEFAULT rather than TARGETING_MATCH; so the literal
reading that the off value is never returned, and that the on
representation only appears with TARGETING_MATCH, fails at these
inputs. -/
theorem c9_counterexample :
    ((resolveStringEvaluation { apiKey := "test-api-key", defaultUrl := "https://example.com" }
        ⟨ServerProviderStatus.READY, []⟩ 0 "feature-a" "off" { targetingKey := some "user-123" }
        (FetchOutcome.response
          { ok := true, status := 200, segmentFlags := some ["feature-b"] })).details.value =
      "off") ∧
    ((resolveStringEvaluation { apiKey := "test-api-key", defaultUrl := "https://example.com" }
        ⟨ServerProviderStatus.READY, []⟩ 0 "feature-a" "on" { targetingKey := some "user-123" }
        (FetchOutcome.response
          { ok := true, status := 200, segmentFlags := some ["feature-b"] })).details.value =
      "on" ∧
     (resolveStringEvaluation { apiKey := "test-api-key", defaultUrl := "https://example.com" }
        ⟨ServerProviderStatus.READY, []⟩ 0 "feature-a" "on" { targetingKey := some "user-123" }
        (FetchOutcome.response
          { ok := true, status := 200, segmentFlags := some ["feature-b"] })).details.reason =
      Reason.DEFAULT) := ⟨rfl, rfl, rfl⟩

/-- C9 amended: in the derived resolvers the off translation branch is
unreachable, because a non-error boolean result has value false exactly
when its reason is DEFAULT; hence every typed result either carries the
on representation with reason TARGETING_MATCH, or carries the
defaultValue with a reason other than TARGETING_MATCH. In particular
resolveStringEvaluation never returns off, resolveNumberEvaluation never
returns 0, and resolveObjectEvaluation never returns the disabled
object, unless that value is the defaultValue itself. -/
theorem c9_amended_on_off_representation (opts : PendoProviderOptions) (st : ProviderState)
    (now : Nat) (fk : String) (dvS : String) (dvN : Int) (dvO : Json)
    (ctx : EvaluationContext) (net : FetchOutcome) :
    (((resolveStringEvaluation opts st now fk dvS ctx net).details.value = "on" ∧
      (resolveStringEvaluation opts st now fk dvS ctx net).details.reason =
        Reason.TARGETING_MATCH) ∨
     ((resolveStringEvaluation opts st now fk dvS ctx net).details.value = dvS ∧
      (resolveStringEvaluation opts st now fk dvS ctx net).details.reason ≠
        Reason.TARGETING_MATCH)) ∧
    (((resolveNumberEvaluation opts st now fk dvN ctx net).details.value = 1 ∧
      (resolveNumberEvaluation opts st now fk dvN ctx net).details.reason =
        Reason.TARGETING_MATCH) ∨
     ((resolveNumberEvaluation opts st now fk dvN ctx net).details.value = dvN ∧
      (resolveNumberEvaluation opts st now fk dvN ctx net).details.reason ≠
        Reason.TARGETING_MATCH)) ∧
    (((resolveObjectEvaluation opts st now fk dvO ctx net).details.value =
        Json.obj [("enabled", Json.bool true)] ∧
      (resolveObjectEvaluation opts st now fk dvO ctx net).details.reason =
        Reason.TARGETING_MATCH) ∨
     ((resolveObjectEvaluation opts st now fk dvO ctx net).details.value = dvO ∧
      (resolveObjectEvaluation opts st now fk dvO ctx net).details.reason ≠
        Reason.TARGETING_MATCH)) := by
  rcases resolveBoolean_shape opts st now fk ctx net with ⟨h1, h2⟩ | ⟨h1, h2⟩ | ⟨h1, h2⟩
  · refine ⟨Or.inr ?_, Or.inr ?_, Or.inr ?_⟩ <;>
      simp [resolveStringEvaluation, resolveNumberEvaluation, resolveObjectEvaluation, h1, h2]
  · refine ⟨Or.inr ?_, Or.inr ?_, Or.inr ?_⟩ <;>
      simp [resolveStringEvaluation, resolveNumberEvaluation, resolveObjectEvaluation, h1, h2]
  · refine ⟨Or.inl ?_, Or.inl ?_, Or.inl ?_⟩ <;>
      simp [resolveStringEvaluation, resolveNumberEvaluation, resolveObjectEvaluation, h1, h2]

/-- C9 witness: for a matched flag, the string resolution carries on
with reason TARGETING_MATCH or the default otherwise, instantiated at a
concrete matching run. -/
theorem c9_witness :
    (((resolveStringEvaluation { apiKey := "test-api-key", defaultUrl := "https://example.com" }
        ⟨ServerProviderStatus.READY, []⟩ 0 "feature-a" "control"
        { targetingKey := some "user-123" }
        (FetchOutcome.response
          { ok := true, status := 200, segmentFlags := some ["feature-a"] })).details.value =
        "on" ∧
      (resolveStringEvaluation { apiKey := "test-api-key", defaultUrl := "https://example.com" }
        ⟨ServerProviderStatus.READY, []⟩ 0 "feature-a" "control"
        { targetingKey := some "user-123" }
        (FetchOutcome.response
          { ok := true, status := 200,
            segmentFlags := some ["feature-a"] })).details.reason = Reason.TARGETING_MATCH) ∨
     ((resolveStringEvaluation { apiKey := "test-api-key", defaultUrl := "https://example.com" }
        ⟨ServerProviderStatus.READY, []⟩ 0 "feature-a" "control"
        { targetingKey := some "user-123" }
        (FetchOutcome.response
          { ok := true, status := 200, segmentFlags := some ["feature-a"] })).details.value =
        "control" ∧
      (resolveStringEvaluation { apiKey := "test-api-key", defaultUrl := "https://example.com" }
        ⟨ServerProviderStatus.READY, []⟩ 0 "feature-a" "control"
        { targetingKey := some "user-123" }
        (FetchOutcome.response
          { ok := true, status := 200,
            segmentFlags := some ["feature-a"] })).details.reason ≠ Reason.TARGETING_MATCH)) :=
  (c9_amended_on_off_representation
    { apiKey := "test-api-key", defaultUrl := "https://example.com" }
    ⟨ServerProviderStatus.READY, []⟩ 0 "feature-a" "control" 0 (Json.obj [])
    { targetingKey := some "user-123" }
    (FetchOutcome.response
      { ok := true, status := 200, segmentFlags := some ["feature-a"] })).1

/-- C10 counterexample: the pair of contexts named by the claim, visitor
a:b with no account and visitor a with account b, do NOT map to the same
composite cache key: the first yields the key a:b: and the second the
key a:b. -/
theorem c10_counterexample :
    cacheKeyOf { targetingKey := some "a:b" } ≠
      cacheKeyOf { targetingKey := some "a", accountId := some "b" } := by decide

/-- C10 amended: the composite cache key is still not injective over
contexts: the distinct contexts with visitor a:b and account c and with
visitor a and account b:c map to the same key, so within the TTL window
a resolution for the second context is served from the flag set cached
for the first, without a remote fetch. -/
theorem c10_amended_cache_key_collision (opts : PendoProviderOptions) (st : ProviderState)
    (t1 t2 : Nat) (fk fk2 : String) (dv1 dv2 : Bool) (net1 net2 : FetchOutcome)
    (flags : List String)
    (hmiss : cacheGet st.cache
      (cacheKeyOf { targetingKey := some "a:b", accountId := some "c" }) = none)
    (hfetch : fetchSegmentFlags net1 = Except.ok flags)
    (ht : t2 < t1 + opts.cacheTtl) :
    cacheKeyOf { targetingKey := some "a:b", accountId := some "c" } =
      cacheKeyOf { targetingKey := some "a", accountId := some "b:c" } ∧
    ({ targetingKey := some "a:b", accountId := some "c" } : EvaluationContext) ≠
      { targetingKey := some "a", accountId := some "b:c" } ∧
    (resolveBooleanEvaluation opts st t1 fk dv1
      { targetingKey := some "a:b", accountId := some "c" } net1).fetched = true ∧
    (resolveBooleanEvaluation opts
      (resolveBooleanEvaluation opts st t1 fk dv1
        { targetingKey := some "a:b", accountId := some "c" } net1).state
      t2 fk2 dv2 { targetingKey := some "a", accountId := some "b:c" } net2).fetched = false ∧
    (resolveBooleanEvaluation opts
      (resolveBooleanEvaluation opts st t1 fk dv1
        { targetingKey := some "a:b", accountId := some "c" } net1).state
      t2 fk2 dv2 { targetingKey := some "a", accountId := some "b:c" } net2).details.value =
      flags.contains fk2 := by
  have hkey : cacheKeyOf { targetingKey := some "a:b", accountId := some "c" } =
      cacheKeyOf { targetingKey := some "a", accountId := some "b:c" } := by decide
  have hstore := getSegmentFlags_store opts st t1
    { targetingKey := some "a:b", accountId := some "c" } net1 flags rfl (Or.inl hmiss) hfetch
  have hstate : (resolveBooleanEvaluation opts st t1 fk dv1
      { targetingKey := some "a:b", accountId := some "c" } net1).state =
      { st with cache := cacheSet st.cache (cacheKeyOf { targetingKey := some "a:b", accountId := some "c" }) ⟨flags, t1 + opts.cacheTtl⟩ } := by
    rw [resolveBoolean_state_eq, hstore]
  have hhit := getSegmentFlags_hit opts
    (resolveBooleanEvaluation opts st t1 fk dv1
      { targetingKey := some "a:b", accountId := some "c" } net1).state t2
    { targetingKey := some "a", accountId := some "b:c" } net2
    ⟨flags, t1 + opts.cacheTtl⟩ rfl
    (by rw [hstate, ← hkey]; exact cacheGet_set_self _ _ _) ht
  refine ⟨hkey, by decide, ?_, ?_, ?_⟩
  · rw [resolveBoolean_fetched_eq, hstore]
  · rw [resolveBoolean_fetched_eq, hhit]
  · rw [resolveBoolean_of_flags opts _ t2 fk2 dv2
      { targetingKey := some "a", accountId := some "b:c" } net2 flags (by rw [hhit])]

/-- C10 witness: with an empty cache, a successful fetch for the first
context, and a second call inside the TTL, the collision and the
cross-served resolution hold at concrete inputs. -/
theorem c10_witness :
    (cacheGet ([] : List (String × CacheEntry))
      (cacheKeyOf { targetingKey := some "a:b", accountId := some "c" }) = none) ∧
    (fetchSegmentFlags (FetchOutcome.response
      { ok := true, status := 200, segmentFlags := some ["flag1"] }) =
      Except.ok ["flag1"]) ∧
    ((50 : Nat) < 0 + 60000) ∧
    (cacheKeyOf { targetingKey := some "a:b", accountId := some "c" } =
      cacheKeyOf { targetingKey := some "a", accountId := some "b:c" }) ∧
    (resolveBooleanEvaluation { apiKey := "test-api-key", defaultUrl := "https://example.com" }
      (resolveBooleanEvaluation { apiKey := "test-api-key", defaultUrl := "https://example.com" }
        ⟨ServerProviderStatus.NOT_READY, []⟩ 0 "flag1" false
        { targetingKey := some "a:b", accountId := some "c" }
        (FetchOutcome.response
          { ok := true, status := 200, segmentFlags := some ["flag1"] })).state
      50 "flag1" false { targetingKey := some "a", accountId := some "b:c" }
      (FetchOutcome.failure "unused")).fetched = false := by
  have h := c10_amended_cache_key_collision
    { apiKey := "test-api-key", defaultUrl := "https://example.com" }
    ⟨ServerProviderStatus.NOT_READY, []⟩ 0 50 "flag1" "flag1" false false
    (FetchOutcome.response { ok := true, status := 200, segmentFlags := some ["flag1"] })
    (FetchOutcome.failure "unused") ["flag1"] rfl rfl (by decide)
  exact ⟨rfl, rfl, by decide, h.1, h.2.2.2.1⟩

end Pendo
